import Mathlib

/-!
Shallow embedding of the MIDI utility module `src/utils/midi_utils.py` of the
Composer repository, together with proofs of the specification claims about
it.

Modelling conventions:
* Parsed MIDI objects of the two third-party backends (`miditoolkit.MidiFile`
  and `pretty_midi.PrettyMIDI`) are modelled as Lean structures carrying the
  fields the module reads.  Only the note field used by the module (`pitch`)
  is carried on notes.
* Python `float` arithmetic is modelled over `ℚ`; the decimal `.1f`
  rendering of durations inside failure messages is abstracted by `toString`
  on `ℚ` (no claim inspects those particular strings).
* The info dictionary built by `get_midi_info` is a structure whose optional
  keys become `Option` fields.
* A function that can raise returns `Except`; `validate_midi_file` receives
  the outcome of parsing the file (the body of its `try` block applies
  `get_midi_info` to a path, which loads via the miditoolkit backend) as an
  `Except String MidiToolkitFile`.
* In-place mutation of an already-loaded object by
  `filter_midi_by_instrument` is modelled by explicit state passing over a
  heap of objects indexed by references.
-/

namespace Composer

/-- A note as read by the module; only the `pitch` attribute is consumed
(by the pitch-range computation). -/
structure Note where
  pitch : Int
deriving Repr, DecidableEq

/-- An instrument track, as exposed identically by both backends:
program number, drum flag, name, and note list. -/
structure Instrument where
  program : Int
  is_drum : Bool
  name : String
  notes : List Note
deriving Repr, DecidableEq

/-- A tempo-change event; the module reads only its `tempo` attribute. -/
structure TempoChange where
  tempo : ℚ
deriving Repr, DecidableEq

/-- A parsed `miditoolkit.MidiFile`, with the fields the module reads.
Time- and key-signature changes are only ever counted, so their element
type is irrelevant and taken to be `Unit`. -/
structure MidiToolkitFile where
  ticks_per_beat : Int
  tempo_changes : List TempoChange
  time_signature_changes : List Unit
  key_signature_changes : List Unit
  instruments : List Instrument
  max_tick : Nat
deriving Repr, DecidableEq

/-- A parsed `pretty_midi.PrettyMIDI`; `end_time` models the value returned
by its `get_end_time()` method. -/
structure PrettyMidiFile where
  instruments : List Instrument
  end_time : ℚ
deriving Repr, DecidableEq

/-- Per-instrument entry of the info dictionary. -/
structure InstInfo where
  program : Int
  is_drum : Bool
  name : String
  num_notes : Nat
deriving Repr, DecidableEq

/-- The `pitch_range` sub-dictionary of the info dictionary. -/
structure PitchRange where
  min : Int
  max : Int
  span : Int
deriving Repr, DecidableEq

/-- The info dictionary returned by `get_midi_info`.  Keys that are present
only for one backend, or only conditionally, are `Option` fields (`none`
models an absent key). -/
structure MidiInfo where
  ticks_per_beat : Option Int
  tempo_changes : Option Nat
  time_signature_changes : Option Nat
  key_signature_changes : Option Nat
  instruments : List InstInfo
  total_notes : Nat
  pitch_range : Option PitchRange
  duration_seconds : Option ℚ
  duration_ticks : Option Nat
deriving Repr, DecidableEq

/-- The mean of a list of rationals, as np.mean computes it (the module applies it to a nonempty
list of tempo values). -/
def mean (xs : List ℚ) : ℚ := xs.sum / (xs.length : ℚ)

/-- The per-instrument dictionary built by both `_get_info_*` loops. -/
def instInfoOf (inst : Instrument) : InstInfo :=
  { program := inst.program
    is_drum := inst.is_drum
    name := inst.name
    num_notes := inst.notes.length }

/-- The `all_notes` pitch list accumulated over all instruments. -/
def allPitches (insts : List Instrument) : List Int :=
  insts.flatMap (fun inst => inst.notes.map (fun n => n.pitch))

/-- The `pitch_range` value: built from `min(all_notes)` and
`max(all_notes)` when the accumulated pitch list is nonempty, absent
otherwise.  (The source guards first on `midi.instruments` being nonempty
and then on `all_notes` being nonempty; an empty instrument list yields an
empty `all_notes`, so the single nonemptiness test is equivalent.) -/
def pitchRangeOf (insts : List Instrument) : Option PitchRange :=
  match (allPitches insts).min?, (allPitches insts).max? with
  | some mn, some mx => some { min := mn, max := mx, span := mx - mn }
  | _, _ => none

/-- The function `_get_info_miditoolkit`.  The duration entries are present exactly when
`midi.max_tick` is truthy (nonzero) and `midi.tempo_changes` is truthy
(nonempty); the duration is
`(max_tick / ticks_per_beat) * (60 / avg_tempo)` over the field of
rationals.  (A file with `ticks_per_beat = 0` would raise
`ZeroDivisionError` in Python; real MIDI headers carry a positive value and
no claim depends on that degenerate case.) -/
def _get_info_miditoolkit (midi : MidiToolkitFile) : MidiInfo :=
  { ticks_per_beat := some midi.ticks_per_beat
    tempo_changes := some midi.tempo_changes.length
    time_signature_changes := some midi.time_signature_changes.length
    key_signature_changes := some midi.key_signature_changes.length
    instruments := midi.instruments.map instInfoOf
    total_notes := (midi.instruments.map (fun inst => inst.notes.length)).sum
    pitch_range := pitchRangeOf midi.instruments
    duration_seconds :=
      if midi.max_tick ≠ 0 ∧ midi.tempo_changes ≠ [] then
        some (((midi.max_tick : ℚ) / (midi.ticks_per_beat : ℚ)) *
          (60 / mean (midi.tempo_changes.map (fun tc => tc.tempo))))
      else none
    duration_ticks :=
      if midi.max_tick ≠ 0 ∧ midi.tempo_changes ≠ [] then some midi.max_tick
      else none }

/-- The function `_get_info_pretty_midi`: duration comes from `get_end_time()`, and no
tempo/time-signature/key-signature counts are recorded. -/
def _get_info_pretty_midi (midi : PrettyMidiFile) : MidiInfo :=
  { ticks_per_beat := none
    tempo_changes := none
    time_signature_changes := none
    key_signature_changes := none
    instruments := midi.instruments.map instInfoOf
    total_notes := (midi.instruments.map (fun inst => inst.notes.length)).sum
    pitch_range := pitchRangeOf midi.instruments
    duration_seconds := some midi.end_time
    duration_ticks := none }

/-- A loaded MIDI object of either backend, as dispatched on by
`get_midi_info`. -/
inductive MidiObject where
  | mtk (m : MidiToolkitFile)
  | pm (m : PrettyMidiFile)
deriving Repr, DecidableEq

/-- The instrument list of a loaded MIDI object. -/
def MidiObject.instrumentList : MidiObject → List Instrument
  | .mtk m => m.instruments
  | .pm m => m.instruments

/-- The function `get_midi_info` on an already-loaded object: dispatch on the backend
type.  (Given a path instead, the source loads it with the miditoolkit
backend first.) -/
def get_midi_info : MidiObject → MidiInfo
  | .mtk m => _get_info_miditoolkit m
  | .pm m => _get_info_pretty_midi m

/-- The first early return of `validate_midi_file`:
`if info["total_notes"] < min_notes: return False, "Too few notes: ..."`.
`none` means the check passed and control falls through. -/
def noteCheck (info : MidiInfo) (min_notes : Int) : Option (Bool × String) :=
  if (info.total_notes : Int) < min_notes then
    some (false, "Too few notes: " ++ toString info.total_notes ++ " < " ++
      toString min_notes)
  else none

/-- The check `if max_duration and duration > max_duration: return False`.
Python truthiness: a `max_duration` of `None` or `0.0` skips the bound. -/
def durationMaxCheck (duration : ℚ) (max_duration : Option ℚ) :
    Option (Bool × String) :=
  match max_duration with
  | none => none
  | some maxd =>
    if maxd ≠ 0 ∧ maxd < duration then
      some (false, "Duration too long: " ++ toString duration ++ "s > " ++
        toString maxd ++ "s")
    else none

/-- The check `if min_duration and duration < min_duration: return False`.
Python truthiness: a `min_duration` of `None` or `0.0` skips the bound. -/
def durationMinCheck (duration : ℚ) (min_duration : Option ℚ) :
    Option (Bool × String) :=
  match min_duration with
  | none => none
  | some mind =>
    if mind ≠ 0 ∧ duration < mind then
      some (false, "Duration too short: " ++ toString duration ++ "s < " ++
        toString mind ++ "s")
    else none

/-- The duration block of `validate_midi_file`: entered only when the
`duration_seconds` key is present, max bound tested before min bound. -/
def durationCheck (info : MidiInfo) (max_duration min_duration : Option ℚ) :
    Option (Bool × String) :=
  match info.duration_seconds with
  | none => none
  | some duration =>
    match durationMaxCheck duration max_duration with
    | some r => some r
    | none => durationMinCheck duration min_duration

/-- The check `if require_tempo and info.get("tempo_changes", 0) == 0:
return False, "No tempo changes found"`. -/
def tempoCheck (info : MidiInfo) (require_tempo : Bool) :
    Option (Bool × String) :=
  if require_tempo ∧ info.tempo_changes.getD 0 = 0 then
    some (false, "No tempo changes found")
  else none

/-- The function `validate_midi_file`.  The argument models the outcome of the `try`
block prefix `info = get_midi_info(file_path)` — a path argument is loaded
with the miditoolkit backend — and the `except` arm turns any raised
exception `e` into `(False, "Error loading MIDI: " + str(e))`.  The checks
then run in source order with early return. -/
def validate_midi_file (parse_result : Except String MidiToolkitFile)
    (min_notes : Int) (max_duration min_duration : Option ℚ)
    (require_tempo : Bool) : Bool × String :=
  match parse_result with
  | .error e => (false, "Error loading MIDI: " ++ e)
  | .ok midi =>
    let info := _get_info_miditoolkit midi
    match noteCheck info min_notes with
    | some r => r
    | none =>
      match durationCheck info max_duration min_duration with
      | some r => r
      | none =>
        match tempoCheck info require_tempo with
        | some r => r
        | none => (true, "Valid")

/-- The loop body predicate of `filter_midi_by_instrument`: a track is kept
unless it is skipped as a drum track, and then only if no program filter is
given or its program is listed. -/
def keepInstrument (program_numbers : Option (List Int))
    (exclude_drums : Bool) (inst : Instrument) : Bool :=
  if exclude_drums && inst.is_drum then false
  else
    match program_numbers with
    | none => true
    | some l => l.contains inst.program

/-- The function `filter_midi_by_instrument` viewed as a function from the loaded object
to the returned object: the instrument list is replaced by the kept tracks
(in original order), every other field is untouched. -/
def filter_midi_by_instrument (midi : MidiToolkitFile)
    (program_numbers : Option (List Int)) (exclude_drums : Bool) :
    MidiToolkitFile :=
  { midi with
    instruments :=
      midi.instruments.filter (keepInstrument program_numbers exclude_drums) }

/-- A heap of loaded miditoolkit objects, indexed by references; used to
state what `filter_midi_by_instrument` does to an already-loaded object it
is handed (the `else` branch of its isinstance test, which assigns to
`midi.instruments` and returns `midi` itself). -/
def MidiHeap : Type := Nat → MidiToolkitFile

/-- The function `filter_midi_by_instrument` on an already-loaded object, with the
mutation made explicit: the call returns the reference it was given and the
heap updated at that reference with the filtered instrument list. -/
def filter_midi_by_instrument_inplace (heap : MidiHeap) (ref : Nat)
    (program_numbers : Option (List Int)) (exclude_drums : Bool) :
    Nat × MidiHeap :=
  let midi := heap ref
  let filtered :=
    midi.instruments.filter (keepInstrument program_numbers exclude_drums)
  (ref, fun r => if r = ref then { midi with instruments := filtered }
    else heap r)

/-- The errors `load_midi_file` can raise. -/
inductive LoadError where
  | fileNotFound (msg : String)
  | valueError (msg : String)
deriving Repr, DecidableEq

/-- The value `load_midi_file` returns on success: a parse by the chosen
backend of the file at the given path. -/
inductive LoadedMidi where
  | miditoolkit (path : String)
  | prettyMidi (path : String)
deriving Repr, DecidableEq

/-- The function `load_midi_file`, over a file system modelled as the set of existing
paths: the existence test comes first and raises `FileNotFoundError`; only
then is the backend string examined, an unknown one raising `ValueError`.
(The messages carry the interpolated path and backend; the quotation marks
of the Python backend-hint text are not reproduced.) -/
def load_midi_file (file_exists : String → Bool) (file_path : String)
    (backend : String) : Except LoadError LoadedMidi :=
  if file_exists file_path = false then
    .error (.fileNotFound ("MIDI file not found: " ++ file_path))
  else if backend = "miditoolkit" then
    .ok (.miditoolkit file_path)
  else if backend = "pretty_midi" then
    .ok (.prettyMidi file_path)
  else
    .error (.valueError ("Unknown backend: " ++ backend ++
      ". Use miditoolkit or pretty_midi"))

/-! Concrete sample objects used by witnesses and counterexamples. -/

/-- A file with no instruments, no tempo changes and no ticks. -/
def sampleEmpty : MidiToolkitFile :=
  { ticks_per_beat := 480, tempo_changes := [], time_signature_changes := [],
    key_signature_changes := [], instruments := [], max_tick := 0 }

/-- A one-note piano track. -/
def pianoInstrument : Instrument :=
  { program := 0, is_drum := false, name := "piano",
    notes := [{ pitch := 60 }] }

/-- A file with one piano note, one tempo change of 60 bpm, 480 ticks per
beat and 480 ticks in total; its computed duration is exactly 1 second. -/
def sampleSong : MidiToolkitFile :=
  { ticks_per_beat := 480, tempo_changes := [{ tempo := 60 }],
    time_signature_changes := [], key_signature_changes := [],
    instruments := [pianoInstrument], max_tick := 480 }

/-- A drum track sharing program number 0 with the piano track. -/
def drumInstrument : Instrument :=
  { program := 0, is_drum := true, name := "drums",
    notes := [{ pitch := 35 }, { pitch := 38 }] }

/-- A violin track (program 40) with two notes. -/
def violinInstrument : Instrument :=
  { program := 40, is_drum := false, name := "violin",
    notes := [{ pitch := 55 }, { pitch := 79 }] }

/-- A heap whose every reference holds `sampleSong` extended with the drum
and violin tracks. -/
def sampleHeap : MidiHeap := fun _ =>
  { ticks_per_beat := 480, tempo_changes := [{ tempo := 60 }],
    time_signature_changes := [], key_signature_changes := [],
    instruments := [pianoInstrument, drumInstrument, violinInstrument],
    max_tick := 480 }

/-! Claim theorems. -/

/-- C1: for every MIDI file whose extracted info has `total_notes` strictly
below the `min_notes` argument, `validate_midi_file` returns `(False, reason)`
with the reason stating the two note counts; for every file with
`total_notes ≥ min_notes` the note-count check passes (falls through). -/
theorem C1_note_count_check (midi : MidiToolkitFile) (min_notes : Int)
    (max_duration min_duration : Option ℚ) (require_tempo : Bool) :
    (((_get_info_miditoolkit midi).total_notes : Int) < min_notes →
      validate_midi_file (.ok midi) min_notes max_duration min_duration
          require_tempo =
        (false, "Too few notes: " ++
          toString (_get_info_miditoolkit midi).total_notes ++ " < " ++
          toString min_notes))
    ∧ (min_notes ≤ ((_get_info_miditoolkit midi).total_notes : Int) →
        noteCheck (_get_info_miditoolkit midi) min_notes = none) := by
  constructor
  · intro h
    simp [validate_midi_file, noteCheck, if_pos h]
  · intro h
    simp [noteCheck, not_lt.mpr h]

/-- Witness for C1 at concrete inputs: the empty file fails against
`min_notes = 10` with the counting message, and the one-note file passes
the check against `min_notes = 0`. -/
theorem C1_note_count_check_witness :
    validate_midi_file (.ok sampleEmpty) 10 none none false =
      (false, "Too few notes: " ++
        toString (_get_info_miditoolkit sampleEmpty).total_notes ++ " < " ++
        toString (10 : Int))
    ∧ noteCheck (_get_info_miditoolkit sampleSong) 0 = none :=
  ⟨(C1_note_count_check sampleEmpty 10 none none false).1 (by decide),
   (C1_note_count_check sampleSong 0 none none false).2 (by decide)⟩

/-- C7: for an existing path, `load_midi_file` raises `ValueError` on any
backend string other than the two known ones; for a missing path it raises
`FileNotFoundError` whatever the backend argument is, the existence test
coming first. -/
theorem C7_load_error_order (file_exists : String → Bool)
    (file_path backend : String) :
    (file_exists file_path = false →
      load_midi_file file_exists file_path backend =
        .error (.fileNotFound ("MIDI file not found: " ++ file_path)))
    ∧ (file_exists file_path = true → backend ≠ "miditoolkit" →
        backend ≠ "pretty_midi" →
        load_midi_file file_exists file_path backend =
          .error (.valueError ("Unknown backend: " ++ backend ++
            ". Use miditoolkit or pretty_midi"))) := by
  constructor
  · intro h
    simp [load_midi_file, h]
  · intro h h1 h2
    simp [load_midi_file, h, h1, h2]

/-- Witness for C7: a missing path with an unknown backend raises
`FileNotFoundError`; an existing path with that backend raises
`ValueError`. -/
theorem C7_load_error_order_witness :
    load_midi_file (fun _ => false) "song.mid" "magenta" =
      .error (.fileNotFound ("MIDI file not found: " ++ "song.mid"))
    ∧ load_midi_file (fun _ => true) "song.mid" "magenta" =
      .error (.valueError ("Unknown backend: " ++ "magenta" ++
        ". Use miditoolkit or pretty_midi")) :=
  ⟨(C7_load_error_order (fun _ => false) "song.mid" "magenta").1 rfl,
   (C7_load_error_order (fun _ => true) "song.mid" "magenta").2 rfl
     (by decide) (by decide)⟩

/-- C8: `validate_midi_file` is total — when loading or info extraction
raises with message `e`, it returns `(False, "Error loading MIDI: " + e)`
instead of propagating the exception, so a `False` first component is the
only failure signal. -/
theorem C8_validate_total_on_error (e : String) (min_notes : Int)
    (max_duration min_duration : Option ℚ) (require_tempo : Bool) :
    validate_midi_file (.error e) min_notes max_duration min_duration
      require_tempo = (false, "Error loading MIDI: " ++ e) := rfl

/-- C10: handed an already-loaded object (a heap reference),
`filter_midi_by_instrument` returns that same reference, the object at the
reference afterwards carries exactly the filtered instrument list with all
its other fields unchanged, and every other reference is untouched. -/
theorem C10_filter_in_place (heap : MidiHeap) (ref : Nat)
    (program_numbers : Option (List Int)) (exclude_drums : Bool) :
    (filter_midi_by_instrument_inplace heap ref program_numbers
      exclude_drums).1 = ref
    ∧ ((filter_midi_by_instrument_inplace heap ref program_numbers
        exclude_drums).2 ref).instruments =
      (heap ref).instruments.filter
        (keepInstrument program_numbers exclude_drums)
    ∧ ((filter_midi_by_instrument_inplace heap ref program_numbers
        exclude_drums).2 ref).ticks_per_beat = (heap ref).ticks_per_beat
    ∧ ((filter_midi_by_instrument_inplace heap ref program_numbers
        exclude_drums).2 ref).tempo_changes = (heap ref).tempo_changes
    ∧ ((filter_midi_by_instrument_inplace heap ref program_numbers
        exclude_drums).2 ref).time_signature_changes =
      (heap ref).time_signature_changes
    ∧ ((filter_midi_by_instrument_inplace heap ref program_numbers
        exclude_drums).2 ref).key_signature_changes =
      (heap ref).key_signature_changes
    ∧ ((filter_midi_by_instrument_inplace heap ref program_numbers
        exclude_drums).2 ref).max_tick = (heap ref).max_tick
    ∧ ∀ r, r ≠ ref →
        (filter_midi_by_instrument_inplace heap ref program_numbers
          exclude_drums).2 r = heap r := by
  refine ⟨rfl, ?_, ?_, ?_, ?_, ?_, ?_, ?_⟩ <;>
    simp [filter_midi_by_instrument_inplace]
  intro r hr
  simp [hr]

/-- Witness for C10 at a concrete heap: filtering reference 0 of the sample
heap leaves reference 1 untouched, returns reference 0, and drops exactly
the drum track there. -/
theorem C10_filter_in_place_witness :
    (filter_midi_by_instrument_inplace sampleHeap 0 none true).1 = 0
    ∧ (filter_midi_by_instrument_inplace sampleHeap 0 none true).2 1 =
      sampleHeap 1 :=
  ⟨(C10_filter_in_place sampleHeap 0 none true).1,
   (C10_filter_in_place sampleHeap 0 none true).2.2.2.2.2.2.2 1 (by decide)⟩

/-- C4: `filter_midi_by_instrument` keeps exactly the input instruments
that survive the drum exclusion and the program filter, in their original
order; the kept-track predicate holds of a track iff it is not a drum track
when drums are excluded and its program is listed when a program list is
given; with no program list every non-excluded track is kept. -/
theorem C4_filter_by_instrument (midi : MidiToolkitFile)
    (program_numbers : Option (List Int)) (exclude_drums : Bool) :
    ((filter_midi_by_instrument midi program_numbers
        exclude_drums).instruments =
      midi.instruments.filter (keepInstrument program_numbers exclude_drums))
    ∧ (∀ inst, keepInstrument program_numbers exclude_drums inst = true ↔
        ((exclude_drums = true → inst.is_drum = false)
          ∧ ∀ l, program_numbers = some l → inst.program ∈ l))
    ∧ (∀ inst ∈ (filter_midi_by_instrument midi program_numbers
        exclude_drums).instruments, inst ∈ midi.instruments)
    ∧ (program_numbers = none →
        (filter_midi_by_instrument midi none exclude_drums).instruments =
          midi.instruments.filter (fun inst => !(exclude_drums &&
            inst.is_drum))) := by
  refine ⟨rfl, ?_, ?_, ?_⟩
  · intro inst
    cases hed : exclude_drums <;> cases hdr : inst.is_drum <;>
      cases program_numbers <;>
      simp [keepInstrument, hdr]
  · intro inst h
    exact (List.mem_filter.mp h).1
  · intro _
    apply List.filter_congr
    intro a _
    cases hed : exclude_drums <;> cases hdr : a.is_drum <;>
      simp [keepInstrument, hdr]

/-- Witness for C4 at concrete inputs: with drums excluded and the piano
program list, only the piano track of the three-track sample survives, the
predicate accepts the piano track, membership projects into the input, and
the no-list case keeps the violin track as well. -/
theorem C4_filter_by_instrument_witness :
    (filter_midi_by_instrument (sampleHeap 0) (some [0]) true).instruments =
      (sampleHeap 0).instruments.filter (keepInstrument (some [0]) true)
    ∧ (keepInstrument (some [0]) true pianoInstrument = true ↔
        ((true = true → pianoInstrument.is_drum = false)
          ∧ ∀ l, (some [0] : Option (List Int)) = some l →
            pianoInstrument.program ∈ l))
    ∧ pianoInstrument ∈ (sampleHeap 0).instruments
    ∧ (filter_midi_by_instrument (sampleHeap 0) none true).instruments =
      (sampleHeap 0).instruments.filter (fun inst => !(true &&
        inst.is_drum)) :=
  ⟨(C4_filter_by_instrument (sampleHeap 0) (some [0]) true).1,
   (C4_filter_by_instrument (sampleHeap 0) (some [0]) true).2.1
     pianoInstrument,
   (C4_filter_by_instrument (sampleHeap 0) (some [0]) true).2.2.1
     pianoInstrument (by decide),
   (C4_filter_by_instrument (sampleHeap 0) none true).2.2.2 rfl⟩

/-- C5: under either backend, the `total_notes` entry of the info dictionary equals
the sum of the `num_notes` fields of its `instruments` entries, and the
`instruments` list carries one entry per input instrument, in the same
order, built by the per-instrument projection. -/
theorem C5_total_notes_sum (obj : MidiObject) :
    (get_midi_info obj).total_notes =
      ((get_midi_info obj).instruments.map (fun i => i.num_notes)).sum
    ∧ (get_midi_info obj).instruments = obj.instrumentList.map instInfoOf := by
  cases obj <;>
    simp [get_midi_info, _get_info_miditoolkit, _get_info_pretty_midi,
      MidiObject.instrumentList, instInfoOf, List.map_map,
      Function.comp_def]

/-- The function `List.min?` on integers returns an element that bounds the list from
below. -/
theorem int_min?_spec {l : List Int} {a : Int} (h : l.min? = some a) :
    a ∈ l ∧ ∀ b ∈ l, a ≤ b := by
  haveI : Std.Antisymm (fun (x1 x2 : Int) => x1 ≤ x2) :=
    ⟨fun h1 h2 => le_antisymm h1 h2⟩
  rw [List.min?_eq_some_iff] at h
  · exact h
  · exact fun x => le_refl x
  · exact fun a b => min_choice a b
  · exact fun a b c => le_min_iff

/-- The function `List.max?` on integers returns an element that bounds the list from
above. -/
theorem int_max?_spec {l : List Int} {a : Int} (h : l.max? = some a) :
    a ∈ l ∧ ∀ b ∈ l, b ≤ a := by
  haveI : Std.Antisymm (fun (x1 x2 : Int) => x1 ≤ x2) :=
    ⟨fun h1 h2 => le_antisymm h1 h2⟩
  rw [List.max?_eq_some_iff] at h
  · exact h
  · exact fun x => le_refl x
  · exact fun a b => max_choice a b
  · exact fun a b c => max_le_iff

/-- The accumulated pitch list is empty exactly when the total note count
of the instruments is zero. -/
theorem allPitches_eq_nil_iff (insts : List Instrument) :
    allPitches insts = [] ↔
      (insts.map (fun inst => inst.notes.length)).sum = 0 := by
  induction insts with
  | nil => simp [allPitches]
  | cons i tl ih =>
    simp only [allPitches, List.flatMap_cons] at ih ⊢
    simp [List.append_eq_nil, ih, List.map_eq_nil_iff, List.length_eq_zero]

/-- The pitch-range entry of the info of either backend is computed by
`pitchRangeOf` on the instruments of the object. -/
theorem pitch_range_eq (obj : MidiObject) :
    (get_midi_info obj).pitch_range = pitchRangeOf obj.instrumentList := by
  cases obj <;> rfl

/-- C6: whenever the info of either backend carries a `pitch_range`, its
`min` and `max` are attained pitches bounding every pitch of every
instrument, `span = max - min`, so `min ≤ max` and `span ≥ 0`; the entry is
absent exactly when the object has no notes (equivalently, when its total
note count is zero). -/
theorem C6_pitch_range (obj : MidiObject) :
    (∀ pr, (get_midi_info obj).pitch_range = some pr →
      pr.min ∈ allPitches obj.instrumentList
      ∧ pr.max ∈ allPitches obj.instrumentList
      ∧ (∀ p ∈ allPitches obj.instrumentList, pr.min ≤ p ∧ p ≤ pr.max)
      ∧ pr.span = pr.max - pr.min ∧ pr.min ≤ pr.max ∧ 0 ≤ pr.span)
    ∧ ((get_midi_info obj).pitch_range = none ↔
        allPitches obj.instrumentList = [])
    ∧ (allPitches obj.instrumentList = [] ↔
        (get_midi_info obj).total_notes = 0) := by
  rw [pitch_range_eq]
  refine ⟨?_, ?_, ?_⟩
  · intro pr h
    unfold pitchRangeOf at h
    cases hmin : (allPitches obj.instrumentList).min? with
    | none => rw [hmin] at h; cases h
    | some mn =>
      cases hmax : (allPitches obj.instrumentList).max? with
      | none => rw [hmin, hmax] at h; cases h
      | some mx =>
        rw [hmin, hmax] at h
        obtain ⟨hmem₁, hlb⟩ := int_min?_spec hmin
        obtain ⟨hmem₂, hub⟩ := int_max?_spec hmax
        cases h
        refine ⟨hmem₁, hmem₂, fun p hp => ⟨hlb p hp, hub p hp⟩, rfl,
          hlb mx hmem₂, ?_⟩
        simpa using hlb mx hmem₂
  · unfold pitchRangeOf
    cases hmin : (allPitches obj.instrumentList).min? with
    | none =>
      simp only [List.min?_eq_none_iff] at hmin
      simp [hmin, List.max?_eq_none_iff]
    | some mn =>
      cases hmax : (allPitches obj.instrumentList).max? with
      | none =>
        rw [List.max?_eq_none_iff] at hmax
        rw [hmax, List.min?_nil] at hmin
        cases hmin
      | some mx =>
        have : allPitches obj.instrumentList ≠ [] := by
          intro hnil
          rw [hnil, List.min?_nil] at hmin
          cases hmin
        simp [this]
  · have htot : (get_midi_info obj).total_notes =
        (obj.instrumentList.map (fun inst => inst.notes.length)).sum := by
      cases obj <;> rfl
    rw [htot]
    exact allPitches_eq_nil_iff obj.instrumentList

/-- Witness for C6 at a concrete object: the three-track sample yields a
pitch range from 35 to 79 with span 44, and its components satisfy the
stated bounds; the empty file yields no pitch range and has zero notes. -/
theorem C6_pitch_range_witness :
    ((35 : Int) ∈ allPitches (MidiObject.mtk (sampleHeap 0)).instrumentList
      ∧ (79 : Int) ∈ allPitches (MidiObject.mtk (sampleHeap 0)).instrumentList
      ∧ (∀ p ∈ allPitches (MidiObject.mtk (sampleHeap 0)).instrumentList,
          (35 : Int) ≤ p ∧ p ≤ (79 : Int))
      ∧ (44 : Int) = 79 - 35 ∧ (35 : Int) ≤ 79 ∧ (0 : Int) ≤ 44)
    ∧ ((get_midi_info (MidiObject.mtk sampleEmpty)).pitch_range = none ↔
        allPitches (MidiObject.mtk sampleEmpty).instrumentList = []) :=
  ⟨(C6_pitch_range (MidiObject.mtk (sampleHeap 0))).1
      { min := 35, max := 79, span := 44 } (by decide),
   (C6_pitch_range (MidiObject.mtk sampleEmpty)).2.1⟩

/-- Unfolding of `validate_midi_file` on a successful parse into its
sequence of early-return checks. -/
theorem validate_ok_eq (midi : MidiToolkitFile) (min_notes : Int)
    (max_duration min_duration : Option ℚ) (require_tempo : Bool) :
    validate_midi_file (.ok midi) min_notes max_duration min_duration
        require_tempo =
      (match noteCheck (_get_info_miditoolkit midi) min_notes with
       | some r => r
       | none =>
         match durationCheck (_get_info_miditoolkit midi) max_duration
             min_duration with
         | some r => r
         | none =>
           match tempoCheck (_get_info_miditoolkit midi) require_tempo with
           | some r => r
           | none => (true, "Valid")) := rfl

/-- Unfolding of the duration block when the `duration_seconds` key is
present. -/
theorem durationCheck_eq {info : MidiInfo} {d : ℚ}
    (hd : info.duration_seconds = some d) (maxd mind : Option ℚ) :
    durationCheck info maxd mind =
      (match durationMaxCheck d maxd with
       | some r => some r
       | none => durationMinCheck d mind) := by
  unfold durationCheck
  rw [hd]

/-- C9: for a miditoolkit file with `max_tick = 0` or no tempo changes,
the info omits the `duration_seconds` (and `duration_ticks`) key; as a
consequence the duration block of `validate_midi_file` never fires, and
its verdict does not depend on the `min_duration` and `max_duration`
arguments at all. -/
theorem C9_duration_silently_skipped (midi : MidiToolkitFile)
    (h : midi.max_tick = 0 ∨ midi.tempo_changes = []) :
    (_get_info_miditoolkit midi).duration_seconds = none
    ∧ (_get_info_miditoolkit midi).duration_ticks = none
    ∧ (∀ max_duration min_duration,
        durationCheck (_get_info_miditoolkit midi) max_duration
          min_duration = none)
    ∧ ∀ min_notes max_duration min_duration require_tempo,
        validate_midi_file (.ok midi) min_notes max_duration min_duration
            require_tempo =
          validate_midi_file (.ok midi) min_notes none none require_tempo := by
  have hcond : ¬(midi.max_tick ≠ 0 ∧ midi.tempo_changes ≠ []) := by
    rcases h with h | h <;> simp [h]
  have hds : (_get_info_miditoolkit midi).duration_seconds = none := by
    simp [_get_info_miditoolkit, hcond]
  have hdc : ∀ max_duration min_duration,
      durationCheck (_get_info_miditoolkit midi) max_duration
        min_duration = none := by
    intro maxd mind
    unfold durationCheck
    rw [hds]
  refine ⟨hds, ?_, hdc, ?_⟩
  · simp [_get_info_miditoolkit, hcond]
  · intro mn maxd mind rt
    rw [validate_ok_eq, validate_ok_eq, hdc maxd mind, hdc none none]

/-- Witness for C9 at the empty file (`max_tick = 0` and no tempo
changes): the duration key is absent, a concrete bound pair is ignored,
and the verdict with bounds matches the verdict without them. -/
theorem C9_duration_silently_skipped_witness :
    (_get_info_miditoolkit sampleEmpty).duration_seconds = none
    ∧ durationCheck (_get_info_miditoolkit sampleEmpty) (some 30)
        (some 5) = none
    ∧ validate_midi_file (.ok sampleEmpty) 0 (some 30) (some 5) false =
        validate_midi_file (.ok sampleEmpty) 0 none none false :=
  ⟨(C9_duration_silently_skipped sampleEmpty (Or.inl rfl)).1,
   (C9_duration_silently_skipped sampleEmpty (Or.inl rfl)).2.2.1
     (some 30) (some 5),
   (C9_duration_silently_skipped sampleEmpty (Or.inl rfl)).2.2.2
     0 (some 30) (some 5) false⟩

/-- When the note-count check fires it only ever produces a `False`
verdict. -/
theorem noteCheck_some_false {info : MidiInfo} {min_notes : Int}
    {r : Bool × String} (h : noteCheck info min_notes = some r) :
    r.1 = false := by
  unfold noteCheck at h
  split at h
  · cases h; rfl
  · cases h

/-- C2 as stated is refuted by a `max_duration` argument of `0`: the
duration of the sample song is 1 second, which exceeds the given bound `0`, yet
validation succeeds, because the Python test `if max_duration and ...` treats the
value `0.0` as falsy and skips the bound. -/
theorem C2_counterexample :
    (_get_info_miditoolkit sampleSong).duration_seconds = some 1
    ∧ (0 : ℚ) < 1
    ∧ validate_midi_file (.ok sampleSong) 0 (some 0) none false =
        (true, "Valid") := by
  refine ⟨?_, by norm_num, by decide⟩
  norm_num [_get_info_miditoolkit, mean, sampleSong, pianoInstrument]

/-- C2 (amended): for every file whose info contains `duration_seconds`,
if `max_duration` is given and nonzero and the duration exceeds it, or
`min_duration` is given and nonzero and the duration is below it,
`validate_midi_file` returns a `False` verdict; when neither (so in
particular when a bound is absent or given as the falsy value `0`), the
duration checks pass. -/
theorem C2_duration_bounds (midi : MidiToolkitFile) (min_notes : Int)
    (max_duration min_duration : Option ℚ) (require_tempo : Bool) (d : ℚ)
    (hd : (_get_info_miditoolkit midi).duration_seconds = some d) :
    (∀ maxd, max_duration = some maxd → maxd ≠ 0 → maxd < d →
      (validate_midi_file (.ok midi) min_notes max_duration min_duration
        require_tempo).1 = false)
    ∧ (∀ mind, min_duration = some mind → mind ≠ 0 → d < mind →
      (validate_midi_file (.ok midi) min_notes max_duration min_duration
        require_tempo).1 = false)
    ∧ ((∀ maxd, max_duration = some maxd → maxd = 0 ∨ d ≤ maxd) →
       (∀ mind, min_duration = some mind → mind = 0 ∨ mind ≤ d) →
        durationCheck (_get_info_miditoolkit midi) max_duration
          min_duration = none) := by
  refine ⟨?_, ?_, ?_⟩
  · intro maxd hmaxd hne hlt
    rw [validate_ok_eq]
    cases hnc : noteCheck (_get_info_miditoolkit midi) min_notes with
    | some r => simpa using noteCheck_some_false hnc
    | none =>
      have hmx : durationMaxCheck d max_duration =
          some (false, "Duration too long: " ++ toString d ++ "s > " ++
            toString maxd ++ "s") := by
        rw [hmaxd]
        simp [durationMaxCheck, hne, hlt]
      rw [durationCheck_eq hd, hmx]
  · intro mind hmind hne hlt
    rw [validate_ok_eq]
    cases hnc : noteCheck (_get_info_miditoolkit midi) min_notes with
    | some r => simpa using noteCheck_some_false hnc
    | none =>
      rw [durationCheck_eq hd]
      cases hmx : durationMaxCheck d max_duration with
      | some r =>
        have hrfalse : r.1 = false := by
          cases hmaxd : max_duration with
          | none => rw [hmaxd] at hmx; cases hmx
          | some maxd =>
            rw [hmaxd] at hmx
            simp only [durationMaxCheck] at hmx
            by_cases hc : maxd ≠ 0 ∧ maxd < d
            · rw [if_pos hc] at hmx
              have h2 := Option.some.inj hmx
              rw [← h2]
            · rw [if_neg hc] at hmx
              cases hmx
        simpa using hrfalse
      | none =>
        have hmn : durationMinCheck d min_duration =
            some (false, "Duration too short: " ++ toString d ++ "s < " ++
              toString mind ++ "s") := by
          rw [hmind]
          simp [durationMinCheck, hne, hlt]
        rw [hmn]
  · intro hmax hmin
    have hmaxnone : durationMaxCheck d max_duration = none := by
      cases hmaxd : max_duration with
      | none => rfl
      | some maxd =>
        rcases hmax maxd hmaxd with h0 | hle
        · simp [durationMaxCheck, h0]
        · simp [durationMaxCheck, not_lt.mpr hle]
    have hminnone : durationMinCheck d min_duration = none := by
      cases hmind : min_duration with
      | none => rfl
      | some mind =>
        rcases hmin mind hmind with h0 | hle
        · simp [durationMinCheck, h0]
        · simp [durationMinCheck, not_lt.mpr hle]
    rw [durationCheck_eq hd, hmaxnone, hminnone]

/-- Witness for the amended C2 at the sample song (duration 1 second): a
given nonzero bound of a half second is enforced, and a given zero bound
is ignored. -/
theorem C2_duration_bounds_witness :
    (validate_midi_file (.ok sampleSong) 0 (some (1 / 2 : ℚ)) none
      false).1 = false
    ∧ durationCheck (_get_info_miditoolkit sampleSong) (some 0) none =
      none := by
  have hd : (_get_info_miditoolkit sampleSong).duration_seconds = some 1 := by
    norm_num [_get_info_miditoolkit, mean, sampleSong, pianoInstrument]
  exact ⟨(C2_duration_bounds sampleSong 0 (some (1 / 2)) none false 1 hd).1
      (1 / 2) rfl (by norm_num) (by norm_num),
    (C2_duration_bounds sampleSong 0 (some 0) none false 1 hd).2.2
      (fun maxd h => Or.inl (Option.some.inj h).symm)
      (fun mind h => by cases h)⟩

/-- C3 as stated is refuted by a file that also fails the note-count
check: the empty file has zero tempo changes, yet with `require_tempo =
True` and the default `min_notes = 10` the verdict carries the note-count
reason, not the tempo reason, because the note check returns first. -/
theorem C3_counterexample :
    (_get_info_miditoolkit sampleEmpty).tempo_changes = some 0
    ∧ validate_midi_file (.ok sampleEmpty) 10 none none true ≠
        (false, "No tempo changes found") := by
  refine ⟨rfl, ?_⟩
  decide

/-- C3 (amended): with `require_tempo = True`, zero recorded tempo changes
and a note count meeting `min_notes`, `validate_midi_file` returns
`(False, "No tempo changes found")` (a file with zero tempo changes also
records no duration, so no duration bound can intervene); with
`require_tempo = False` the tempo check always falls through, whatever the
tempo-change count. -/
theorem C3_tempo_requirement (midi : MidiToolkitFile) (min_notes : Int)
    (max_duration min_duration : Option ℚ) :
    ((_get_info_miditoolkit midi).tempo_changes = some 0 →
      min_notes ≤ ((_get_info_miditoolkit midi).total_notes : Int) →
      validate_midi_file (.ok midi) min_notes max_duration min_duration
        true = (false, "No tempo changes found"))
    ∧ tempoCheck (_get_info_miditoolkit midi) false = none := by
  constructor
  · intro htc hmn
    have hlen : midi.tempo_changes.length = 0 := by
      have h0 : some midi.tempo_changes.length = some 0 := htc
      exact Option.some.inj h0
    have hempty : midi.tempo_changes = [] := List.length_eq_zero.mp hlen
    have hnc : noteCheck (_get_info_miditoolkit midi) min_notes = none := by
      simp [noteCheck, not_lt.mpr hmn]
    have hds : (_get_info_miditoolkit midi).duration_seconds = none := by
      simp [_get_info_miditoolkit, hempty]
    have hdc : durationCheck (_get_info_miditoolkit midi) max_duration
        min_duration = none := by
      unfold durationCheck
      rw [hds]
    have htmp : tempoCheck (_get_info_miditoolkit midi) true =
        some (false, "No tempo changes found") := by
      simp [tempoCheck, htc]
    rw [validate_ok_eq, hnc, hdc, htmp]
  · simp [tempoCheck]

/-- Witness for the amended C3 at the empty file with `min_notes = 0`: the
tempo rejection is returned, and with `require_tempo = False` the tempo
check falls through. -/
theorem C3_tempo_requirement_witness :
    validate_midi_file (.ok sampleEmpty) 0 none none true =
      (false, "No tempo changes found")
    ∧ tempoCheck (_get_info_miditoolkit sampleEmpty) false = none :=
  ⟨(C3_tempo_requirement sampleEmpty 0 none none).1 rfl (by decide),
   (C3_tempo_requirement sampleEmpty 0 none none).2⟩

end Composer
